import Mathlib

/-!
Verification of the SolarScout backend (`backend/config.py`,
`backend/database.py`, `backend/main.py`) against its natural-language
specification.

The Python code is shallowly embedded: pure helpers become Lean functions on
`String` / `List Char`; the PostGIS geometry functions that the SQL statement
delegates to are abstracted as a record of operations (`GeomOps`); database
tables are lists of rows; the asyncpg fetch that can fail is modelled by an
outcome function `Nat → FetchRes` giving the result of each attempt.
Numeric SQL/Python values (`numeric`, `float`) are modelled as `ℚ`.
-/

/-! ## Python string primitives (ASCII-level models of `str` methods) -/

-- Python `str.strip()` whitespace set (ASCII part).
def isPySpace (c : Char) : Bool :=
  c == ' ' || c == '\t' || c == '\n' || c == '\r' || c == '\x0b' || c == '\x0c'

def pyStripL (cs : List Char) : List Char :=
  ((cs.dropWhile isPySpace).reverse.dropWhile isPySpace).reverse

def pyStrip (s : String) : String :=
  ⟨pyStripL s.data⟩

-- ASCII lowering; the strings handled by this code base (URLs, SQLSTATE
-- codes, driver messages) are ASCII, so this models Python `str.lower()`.
def asciiLower (c : Char) : Char :=
  if 'A' ≤ c ∧ c ≤ 'Z' then Char.ofNat (c.toNat + 32) else c

def lowerL (cs : List Char) : List Char :=
  cs.map asciiLower

def pyLower (s : String) : String :=
  ⟨lowerL s.data⟩

-- Python `str.splitlines()` on `\n`, `\r`, `\r\n`; a trailing terminator
-- produces no extra empty line, and `"".splitlines() == []`.
def splitLinesGo (acc : List Char) : List Char → List (List Char)
  | [] => if acc.isEmpty then [] else [acc.reverse]
  | '\r' :: '\n' :: rest => acc.reverse :: splitLinesGo [] rest
  | '\n' :: rest => acc.reverse :: splitLinesGo [] rest
  | '\r' :: rest => acc.reverse :: splitLinesGo [] rest
  | c :: rest => splitLinesGo (c :: acc) rest

def splitLinesL (cs : List Char) : List (List Char) :=
  splitLinesGo [] cs

-- `sep.join(parts)` for a single-character separator.
def joinWithChar (c : Char) : List (List Char) → List Char
  | [] => []
  | [x] => x
  | x :: y :: rest => x ++ c :: joinWithChar c (y :: rest)

-- `needle` is a leading segment of the second list.
def leadsWith : List Char → List Char → Bool
  | [], _ => true
  | _ :: _, [] => false
  | a :: as, b :: bs => a == b && leadsWith as bs

-- Python `needle in hay` substring test.
def containsSeq (needle : List Char) : List Char → Bool
  | [] => needle.isEmpty
  | c :: rest => leadsWith needle (c :: rest) || containsSeq needle rest

-- Python `hay.endswith(suffix)`.
def trailsWith (suffix hay : List Char) : Bool :=
  leadsWith suffix.reverse hay.reverse

def strHasSub (hay sub : String) : Bool :=
  containsSeq sub.data hay.data

def strLeads (hay pre : String) : Bool :=
  leadsWith pre.data hay.data

-- Python `s.split(sep)` for a one-character separator: `"".split(",") == [""]`.
def splitOnCharGo (sep : Char) (acc : List Char) : List Char → List (List Char)
  | [] => [acc.reverse]
  | c :: rest =>
      if c == sep then acc.reverse :: splitOnCharGo sep [] rest
      else splitOnCharGo sep (c :: acc) rest

def splitOnCharL (sep : Char) (cs : List Char) : List (List Char) :=
  splitOnCharGo sep [] cs

-- First occurrence split: `some (before, after)` when the character occurs.
def splitFirst (sep : Char) : List Char → Option (List Char × List Char)
  | [] => none
  | c :: rest =>
      if c == sep then some ([], rest)
      else (splitFirst sep rest).map (fun p => (c :: p.1, p.2))

-- Part of the list after the last occurrence of `sep` (all of it if absent),
-- modelling Python `s.rpartition(sep)[2]`.
def afterLastChar (sep : Char) (cs : List Char) : List Char :=
  (cs.reverse.takeWhile (fun c => c != sep)).reverse

/-! ## `backend/config.py`: URL parsing model (`urllib.parse` fragment)

Only the behaviour exercised by `normalize_database_url` is modelled:
scheme/netloc/path/query/fragment splitting, the `hostname` accessor,
`parse_qsl` with `keep_blank_values=True`, `urlencode`, and `urlunparse`.
Percent-encoding is not modelled (`quote_plus`/`unquote_plus` act on `+`/space
only); the `params` (`;`) component of `urlparse` is not modelled.  Postgres
connection strings contain neither. -/

structure UrlParts where
  scheme : List Char
  netloc : List Char
  path : List Char
  query : List Char
  fragment : List Char
deriving DecidableEq

def schemeCharOk (c : Char) : Bool :=
  c.isAlphanum || c == '+' || c == '-' || c == '.'

def urlparseL (url0 : List Char) : UrlParts :=
  -- CPython removes the unsafe bytes \r, \n, \t before splitting.
  let url := url0.filter (fun c => !(c == '\r' || c == '\n' || c == '\t'))
  let schemeRest : List Char × List Char :=
    match splitFirst ':' url with
    | none => ([], url)
    | some (pre, post) =>
        match pre with
        | [] => ([], url)
        | c :: _ =>
            if c.isAlpha && pre.all schemeCharOk then (lowerL pre, post)
            else ([], url)
  let netlocRest : List Char × List Char :=
    match schemeRest.2 with
    | '/' :: '/' :: tail =>
        (tail.takeWhile (fun c => !(c == '/' || c == '?' || c == '#')),
         tail.dropWhile (fun c => !(c == '/' || c == '?' || c == '#')))
    | other => ([], other)
  let fragSplit : List Char × List Char :=
    match splitFirst '#' netlocRest.2 with
    | none => (netlocRest.2, [])
    | some p => p
  let querySplit : List Char × List Char :=
    match splitFirst '?' fragSplit.1 with
    | none => (fragSplit.1, [])
    | some p => p
  ⟨schemeRest.1, netlocRest.1, querySplit.1, querySplit.2, fragSplit.2⟩

-- `SplitResult.hostname`: strip userinfo, strip the port, lowercase.
def hostnameOfNetloc (netloc : List Char) : List Char :=
  let hostinfo := afterLastChar '@' netloc
  match splitFirst '[' hostinfo with
  | some (_, bracketed) => lowerL (bracketed.takeWhile (fun c => c != ']'))
  | none => lowerL (hostinfo.takeWhile (fun c => c != ':'))

-- `unquote_plus` / `quote_plus` restricted to the `+`/space translation.
def unquotePlusL (cs : List Char) : List Char :=
  cs.map (fun c => if c == '+' then ' ' else c)

def quotePlusL (cs : List Char) : List Char :=
  cs.map (fun c => if c == ' ' then '+' else c)

-- `parse_qsl(query, keep_blank_values=True)`: split on `&`, skip empty
-- chunks, split each chunk at the first `=` (missing value becomes "").
def parseQsl (query : List Char) : List (List Char × List Char) :=
  (splitOnCharL '&' query).filterMap (fun field =>
    if field.isEmpty then none
    else
      match splitFirst '=' field with
      | none => some (unquotePlusL field, [])
      | some (n, v) => some (unquotePlusL n, unquotePlusL v))

-- `dict(pairs)`: later duplicates overwrite in place, new keys append.
def qslToDict (ps : List (List Char × List Char)) : List (List Char × List Char) :=
  ps.foldl
    (fun acc kv =>
      if acc.any (fun p => p.1 == kv.1) then
        acc.map (fun p => if p.1 == kv.1 then (p.1, kv.2) else p)
      else acc ++ [kv])
    []

def urlencodeL (ps : List (List Char × List Char)) : List Char :=
  joinWithChar '&' (ps.map (fun p => quotePlusL p.1 ++ '=' :: quotePlusL p.2))

-- `urlunparse` (via `urlunsplit`), without the unused `params` component.
def urlunparseL (u : UrlParts) : List Char :=
  let url := u.path
  let url :=
    if u.netloc ≠ [] ∨ leadsWith ['/', '/'] url then
      ('/' :: '/' :: u.netloc) ++
        (if url ≠ [] ∧ ¬(leadsWith ['/'] url) then '/' :: url else url)
    else url
  let url := if u.scheme ≠ [] then u.scheme ++ ':' :: url else url
  let url := if u.query ≠ [] then url ++ '?' :: u.query else url
  if u.fragment ≠ [] then url ++ '#' :: u.fragment else url

/-! ## `backend/config.py`: the two field validators -/

-- A pydantic `mode="before"` validator receives an arbitrary Python value;
-- `normalize_database_url` only inspects strings.
inductive SettingVal where
  | str (s : String)
  | other
deriving DecidableEq

def normalize_database_url (value : SettingVal) : SettingVal :=
  match value with
  | .other => .other
  | .str s =>
      let raw := pyStrip s
      if raw = "" then .str s
      else
        let parsed := urlparseL raw.data
        if ¬(parsed.scheme = ("postgres").data ∨ parsed.scheme = ("postgresql").data) then
          .str s
        else
          let hostname := lowerL (hostnameOfNetloc parsed.netloc)
          if ¬(trailsWith (("render.com").data) hostname = true) then .str s
          else
            let query := qslToDict (parseQsl parsed.query)
            if query.any (fun p => p.1 == ("sslmode").data) then .str s
            else
              .str ⟨urlunparseL
                { parsed with
                    query :=
                      urlencodeL (query ++ [(("sslmode").data, ("require").data)]) }⟩

def appendSslResult (raw : List Char) : String :=
  let u := urlparseL raw
  ⟨urlunparseL
    { u with
        query :=
          urlencodeL (qslToDict (parseQsl u.query) ++
            [(("sslmode").data, ("require").data)]) }⟩

-- Modelled from the spec: "if the URL scheme is postgres/postgresql, the
-- hostname ends with a specific managed-hosting domain suffix, and no sslmode
-- query parameter is already present, append sslmode=require.  Otherwise pass
-- the URL through unchanged.  Non-string or empty input passes through
-- unchanged."  (Used as the refinement target for C8.)
def normalize_database_url_spec (value : SettingVal) : SettingVal :=
  match value with
  | .other => .other
  | .str s =>
      let raw := pyStrip s
      if raw = "" then .str s
      else
        let u := urlparseL raw.data
        if (u.scheme = ("postgres").data ∨ u.scheme = ("postgresql").data) ∧
            trailsWith (("render.com").data) (lowerL (hostnameOfNetloc u.netloc)) = true ∧
            ¬((qslToDict (parseQsl u.query)).any (fun p => p.1 == ("sslmode").data) = true)
        then .str (appendSslResult raw.data)
        else .str s

/-! ## `backend/config.py`: `parse_cors_origins` -/

-- Result of `json.loads`: only the shapes the validator inspects.  `pyStr`
-- models Python `str()` on the scalar shapes the claims exercise.
inductive PyAny where
  | pstr (s : String)
  | plist (items : List PyAny)
  | pother (reprS : String)

def pyStr : PyAny → String
  | .pstr s => s
  | .pother r => r
  | .plist _ => ""   -- `str()` of a nested list is never exercised here

inductive CorsVal where
  | vstr (s : String)
  | vlist (xs : List String)
  | vother
deriving DecidableEq

-- `json.loads` is external; the validator is parametrised by it.
def parse_cors_origins (jloads : String → Option PyAny) (value : CorsVal) : CorsVal :=
  match value with
  | .vstr s =>
      let raw := pyStrip s
      if raw = "" then .vlist []
      else if strLeads raw ("[") then
        match jloads raw with
        | none => .vlist [raw]
        | some (.plist items) =>
            .vlist (items.filterMap (fun it =>
              let t := pyStrip (pyStr it)
              if t = "" then none else some t))
        | some _ => .vlist [raw]
      else
        .vlist ((splitOnCharL ',' raw.data).filterMap (fun piece =>
          let t := pyStripL piece
          if t = [] then none else some (⟨t⟩ : String)))
  | .vlist xs => .vlist xs
  | .vother => .vother

/-! ## `backend/database.py`: error types and classification -/

-- The two user-facing exception types of the database layer.
inductive DbError where
  | connErr (msg : String)    -- DatabaseConnectionError
  | queryErr (msg : String)   -- DatabaseQueryError
deriving DecidableEq

-- A driver exception: its `sqlstate` attribute (absent/None modelled as
-- `none`) and its `str(exc)` message.
structure Exc where
  sqlstate : Option String
  message : String
deriving DecidableEq

def TRANSIENT_CONNECTION_SQLSTATE_PREFIXES : List String :=
  ["08", "57"]

def TRANSIENT_CONNECTION_MESSAGES : List String :=
  ["connection was closed", "connection is closed",
   "terminating connection", "connection reset"]

-- `" ".join(str(exc).splitlines()).strip()` (line 225).
def normMessage (s : String) : String :=
  ⟨pyStripL (joinWithChar ' ' (splitLinesL s.data))⟩

-- The same, lowercased (line 88).
def normMessageLower (s : String) : String :=
  ⟨lowerL (pyStripL (joinWithChar ' ' (splitLinesL s.data)))⟩

-- `Database._is_transient_connection_error` (lines 86-91).
def is_transient_connection_error (e : Exc) : Bool :=
  let sqlstate := e.sqlstate.getD ("")
  let raw := normMessageLower e.message
  TRANSIENT_CONNECTION_SQLSTATE_PREFIXES.any (fun p => strLeads sqlstate p) ||
  TRANSIENT_CONNECTION_MESSAGES.any (fun t => strHasSub raw t)

def connDroppedMsg : String :=
  "Database connection dropped during analysis. Please retry in a few seconds. If this persists on Render, check service/database region and DATABASE_URL."

def missingTablesGenericMsg : String :=
  "Spatial analysis query failed: required ARD tables are missing. Run prepare_data.sql in the target database."

def postgisMissingMsg : String :=
  "Spatial analysis query failed: PostGIS functions are unavailable. Enable extension with CREATE EXTENSION postgis;"

def mixedSridMsg : String :=
  "Spatial analysis query failed: mixed SRID geometries detected. Rebuild ARD tables using prepare_data.sql so all tables use EPSG:25832."

def topologyMsg : String :=
  "Spatial analysis query failed: invalid topology in source geometries. Re-run prepare_data.sql and retry."

-- The classification of the final exception (lines 222-257).
def classifyFinalError (e : Exc) : DbError :=
  if is_transient_connection_error e then .connErr connDroppedMsg
  else
    let sqlstate := e.sqlstate.getD ("unknown")
    let raw := normMessage e.message
    if sqlstate = "42P01" then .queryErr missingTablesGenericMsg
    else if sqlstate = "42883" then .queryErr postgisMissingMsg
    else if strHasSub raw ("mixed SRID") then .queryErr mixedSridMsg
    else if strHasSub raw ("TopologyException") then .queryErr topologyMsg
    else
      .queryErr ("Spatial analysis query failed (sqlstate " ++ sqlstate ++ "): " ++ raw)

-- `exc = last_exc or Exception("Unknown database failure.")` (line 223).
def unknownFailureExc : Exc :=
  { sqlstate := none, message := "Unknown database failure." }

/-! ## `backend/database.py`: table preflight -/

def requiredAnalysisTables : List String :=
  ["candidate_parcels", "exclusion_zones", "grid_infrastructure"]

def strJoinCommaSpace : List String → String
  | [] => ""
  | [x] => x
  | x :: y :: rest => x ++ ", " ++ strJoinCommaSpace (y :: rest)

-- The tables reported missing by the preflight query.  The SQL orders them
-- by name; `requiredAnalysisTables` is already in that order and `filter`
-- preserves it.
def missingTablesOf (present : List String) : List String :=
  requiredAnalysisTables.filter (fun t => !(present.contains t))

def missingTablesMsg (missing : List String) : String :=
  "Spatial analysis query failed: required ARD tables are missing (" ++
    strJoinCommaSpace missing ++ "). Run prepare_data.sql in the target database."

-- `Database._ensure_analysis_tables` (lines 275-296): `none` when all three
-- tables exist, otherwise the raised DatabaseQueryError.
def ensure_analysis_tables (present : List String) : Option DbError :=
  let missing := missingTablesOf present
  if missing.isEmpty then none
  else some (.queryErr (missingTablesMsg missing))

/-! ## `backend/database.py`: the analysis SQL statement

The fixed query of `analyze_sites` (lines 109-183), embedded CTE by CTE over
an abstract geometry type `G` and an abstract parsed-GeoJSON type `J`.  The
PostGIS functions are fields of `GeomOps`; the SQL window function
`ROW_NUMBER() OVER (ORDER BY area_ha DESC, landuse)` is modelled by sorting
the filtered candidate set and numbering from 1. -/

structure GeomOps (G J : Type) where
  buffer : G → Int → G                 -- ST_Buffer(geom, $2)
  isEmpty : G → Bool                   -- ST_IsEmpty
  intersects : G → G → Bool            -- ST_Intersects
  difference : G → G → G               -- ST_Difference
  makeValid : G → G                    -- ST_MakeValid
  collectionExtract3 : G → G           -- ST_CollectionExtract(·, 3)
  multi : G → G                        -- ST_Multi
  castMultiPolygon25832 : G → G        -- ::geometry(MultiPolygon, 25832)
  dwithin : G → G → Int → Bool         -- ST_DWithin(·, ·, $4)
  transform4326 : G → G                -- ST_Transform(·, 4326)
  asGeoJSON : G → String               -- ST_AsGeoJSON
  collect2 : G → G → G                 -- ST_Collect aggregate (two-row step)
  unaryUnion : G → G                   -- ST_UnaryUnion
  jsonLoads : String → J               -- Python json.loads on the geometry

structure ParcelRow (G : Type) where
  area_ha : ℚ
  landuse : String
  geom : Option G

structure ZoneRow (G : Type) where
  category : String
  geom : Option G

structure GridRow (G : Type) where
  geom : Option G

structure Db (G : Type) where
  tables : List String
  candidate_parcels : List (ParcelRow G)
  exclusion_zones : List (ZoneRow G)
  grid_infrastructure : List (GridRow G)

structure AnalysisParams where
  buffer_distance : Int
  exclude_nature : Bool
  min_area : ℚ
  max_grid_distance : Int
deriving DecidableEq

-- A candidate row that passed the `parcels` CTE's WHERE clause.
structure CandParcel (G : Type) where
  area_ha : ℚ
  landuse : String
  geom : G
deriving DecidableEq

-- A row of the `parcels` CTE, rank attached.
structure RankedParcel (G : Type) where
  id : Nat
  area_ha : ℚ
  landuse : String
  geom : G
deriving DecidableEq

-- A row of the final SELECT, geometry serialized by ST_AsGeoJSON.
structure FeatureRow where
  id : Nat
  area_ha : ℚ
  landuse : String
  geometry : String
deriving DecidableEq

-- `ORDER BY area_ha DESC, landuse` as a total preorder on (area, landuse).
def byAreaLanduse (a b : ℚ × String) : Prop :=
  b.1 < a.1 ∨ (a.1 = b.1 ∧ a.2 ≤ b.2)

instance : DecidableRel byAreaLanduse := fun a b =>
  inferInstanceAs (Decidable (_ ∨ _))

instance : IsTotal (ℚ × String) byAreaLanduse := by
  constructor
  intro a b
  rcases lt_trichotomy a.1 b.1 with h | h | h
  · exact Or.inr (Or.inl h)
  · rcases le_total a.2 b.2 with h2 | h2
    · exact Or.inl (Or.inr ⟨h, h2⟩)
    · exact Or.inr (Or.inr ⟨h.symm, h2⟩)
  · exact Or.inl (Or.inl h)

instance : IsTrans (ℚ × String) byAreaLanduse := by
  constructor
  intro a b c hab hbc
  rcases hab with h1 | ⟨e1, s1⟩
  · rcases hbc with h2 | ⟨e2, _⟩
    · exact Or.inl (h2.trans h1)
    · exact Or.inl (e2 ▸ h1)
  · rcases hbc with h2 | ⟨e2, s2⟩
    · exact Or.inl (e1 ▸ h2)
    · exact Or.inr ⟨e1.trans e2, s1.trans s2⟩

def candKey {G : Type} (c : CandParcel G) : ℚ × String :=
  (c.area_ha, c.landuse)

def candLE {G : Type} (a b : CandParcel G) : Prop :=
  byAreaLanduse (candKey a) (candKey b)

instance {G : Type} : DecidableRel (candLE (G := G)) := fun a b =>
  inferInstanceAs (Decidable (byAreaLanduse _ _))

instance {G : Type} : IsTotal (CandParcel G) candLE :=
  ⟨fun a b => IsTotal.total (r := byAreaLanduse) (candKey a) (candKey b)⟩

instance {G : Type} : IsTrans (CandParcel G) candLE :=
  ⟨fun _ _ _ hab hbc => IsTrans.trans (r := byAreaLanduse) _ _ _ hab hbc⟩

-- WHERE clause of the `parcels` CTE: area_ha >= $1, geom non-NULL, non-empty.
def candFilter {G J : Type} (ops : GeomOps G J) (minArea : ℚ) (r : ParcelRow G) :
    Option (CandParcel G) :=
  match r.geom with
  | none => none
  | some g =>
      if minArea ≤ r.area_ha ∧ ops.isEmpty g = false then
        some ⟨r.area_ha, r.landuse, g⟩
      else none

-- The `parcels` CTE: filter, rank by descending area then landuse, number
-- from 1 (`ROW_NUMBER()` starts at 1).
def parcelsCTE {G J : Type} (ops : GeomOps G J) (minArea : ℚ)
    (rows : List (ParcelRow G)) : List (RankedParcel G) :=
  (((rows.filterMap (candFilter ops minArea)).insertionSort candLE).enumFrom 1).map
    (fun pr => ⟨pr.1, pr.2.area_ha, pr.2.landuse, pr.2.geom⟩)

def natureCategories : List String :=
  ["woodland", "park", "water", "nature_reserve"]

-- The `exclusions` CTE: one unioned geometry, or NULL (`none`) when the
-- aggregate sees no non-NULL geometry.
def exclusionsCTE {G J : Type} (ops : GeomOps G J) (bufferDistance : Int)
    (excludeNature : Bool) (zones : List (ZoneRow G)) : Option G :=
  let relevant := zones.filter (fun z =>
    z.category == "residential" ||
      (excludeNature && natureCategories.contains z.category))
  let geoms := relevant.filterMap (fun z =>
    if z.category == "residential" then z.geom.map (fun g => ops.buffer g bufferDistance)
    else if excludeNature && natureCategories.contains z.category then z.geom
    else none)
  match geoms with
  | [] => none
  | g :: gs => some (ops.unaryUnion (gs.foldl ops.collect2 g))

-- The CASE expression of `parcels_cut`.
def cutGeom {G J : Type} (ops : GeomOps G J) (excl : Option G) (g : G) : G :=
  match excl with
  | none => g
  | some e => if ops.intersects g e = false then g else ops.difference g e

-- `parcels_cut`: CROSS JOIN with the single exclusions row.
def parcelsCutCTE {G J : Type} (ops : GeomOps G J) (excl : Option G)
    (ps : List (RankedParcel G)) : List (RankedParcel G) :=
  ps.map (fun p => { p with geom := cutGeom ops excl p.geom })

def cleanGeom {G J : Type} (ops : GeomOps G J) (g : G) : G :=
  ops.castMultiPolygon25832 (ops.multi (ops.collectionExtract3 (ops.makeValid g)))

-- `cleaned`: drop empty post-cut geometries, then repair/extract/retype.
def cleanedCTE {G J : Type} (ops : GeomOps G J)
    (ps : List (RankedParcel G)) : List (RankedParcel G) :=
  (ps.filter (fun p => !(ops.isEmpty p.geom))).map
    (fun p => { p with geom := cleanGeom ops p.geom })

def nearGridPred {G J : Type} (ops : GeomOps G J) (maxGridDistance : Int)
    (grid : List (GridRow G)) (g : G) : Bool :=
  grid.any (fun gi =>
    match gi.geom with
    | some gg => ops.dwithin g gg maxGridDistance
    | none => false)

-- `near_grid`: keep parcels within the grid distance of some grid feature.
def nearGridCTE {G J : Type} (ops : GeomOps G J) (maxGridDistance : Int)
    (grid : List (GridRow G)) (ps : List (RankedParcel G)) : List (RankedParcel G) :=
  ps.filter (fun p => nearGridPred ops maxGridDistance grid p.geom)

-- Final SELECT: drop empty geometries (tested before reprojection), then
-- serialize the reprojected geometry.
def finalSelect {G J : Type} (ops : GeomOps G J)
    (ps : List (RankedParcel G)) : List FeatureRow :=
  (ps.filter (fun p => !(ops.isEmpty p.geom))).map
    (fun p => ⟨p.id, p.area_ha, p.landuse, ops.asGeoJSON (ops.transform4326 p.geom)⟩)

def analysisQueryRows {G J : Type} (ops : GeomOps G J) (db : Db G)
    (p : AnalysisParams) : List FeatureRow :=
  finalSelect ops
    (nearGridCTE ops p.max_grid_distance db.grid_infrastructure
      (cleanedCTE ops
        (parcelsCutCTE ops
          (exclusionsCTE ops p.buffer_distance p.exclude_nature db.exclusion_zones)
          (parcelsCTE ops p.min_area db.candidate_parcels))))

/-! ## `backend/database.py`: row-to-Feature mapping (lines 259-273) -/

structure Feature (J : Type) where
  geometry : J
  id : Nat
  area_ha : ℚ
  landuse : String
deriving DecidableEq

structure FeatureCollection (J : Type) where
  features : List (Feature J)
deriving DecidableEq

def buildFeatureCollection {G J : Type} (ops : GeomOps G J)
    (rows : List FeatureRow) : FeatureCollection J :=
  ⟨rows.map (fun r => ⟨ops.jsonLoads r.geometry, r.id, r.area_ha, r.landuse⟩)⟩

def analysisResult {G J : Type} (ops : GeomOps G J) (db : Db G)
    (p : AnalysisParams) : FeatureCollection J :=
  buildFeatureCollection ops (analysisQueryRows ops db p)

/-! ## `backend/database.py`: the retry loop (lines 192-220)

`pool.fetch` is modelled by an outcome function `f : Nat → FetchRes` giving
the result of the k-th attempt (0-based, as in `range(max_attempts)`).
`runLoop` returns the trace of externally visible actions together with the
loop's outcome.  `LoopAction.reconnect` stands for `self._reconnect()` (pool
teardown and rebuild), `LoopAction.preflight` for the re-run of
`_ensure_analysis_tables`, and `LoopAction.sleepMs d` for `asyncio.sleep` of `d`
milliseconds (`0.25 * (attempt + 1)` seconds in the source). -/

inductive FetchRes where
  | success                       -- fetch returned rows
  | failPg (e : Exc)              -- asyncpg.PostgresError / InterfaceError
  | failOther (e : Exc)           -- any other exception
deriving DecidableEq

inductive LoopAction where
  | fetch
  | reconnect
  | preflight
  | sleepMs (d : Nat)
deriving DecidableEq

inductive LoopResult where
  | gotRows
  | failed (e : Exc)
  | noRows                        -- loop exhausted without running (maxA = 0)
deriving DecidableEq

-- The loop body from attempt `k`, with `n` iterations remaining out of
-- `maxA = max_attempts` total.
def runLoop (f : Nat → FetchRes) (maxA : Nat) : Nat → Nat → List LoopAction × LoopResult
  | _, 0 => ([], .noRows)
  | k, n + 1 =>
      match f k with
      | .success => ([.fetch], .gotRows)
      | .failPg e =>
          if k < maxA - 1 ∧ is_transient_connection_error e = true then
            let rest := runLoop f maxA (k + 1) n
            (.fetch :: .reconnect :: .preflight :: .sleepMs (250 * (k + 1)) :: rest.1,
             rest.2)
          else ([.fetch], .failed e)
      | .failOther e => ([.fetch], .failed e)

-- `max_attempts = 3` (line 194).
def analysisAttempts (f : Nat → FetchRes) : List LoopAction × LoopResult :=
  runLoop f 3 0 3

/-! ## `backend/database.py`: `Database` state and operations -/

-- The connection-lifecycle state: whether `self._pool` is set.
structure DbState where
  poolUp : Bool
deriving DecidableEq

def poolNotInitializedMsg : String :=
  "Database pool is not initialized."

-- `Database.is_connected` (lines 36-38).
def is_connected (st : DbState) : Bool :=
  st.poolUp

-- `Database.connect` (lines 40-60) as a pool-state transition: a no-op when
-- a pool exists, otherwise the pool is set iff `create_pool` succeeds (`ok`);
-- on failure a DatabaseConnectionError is raised with `self._pool` still None.
def connectState (st : DbState) (ok : Bool) : DbState :=
  if st.poolUp then st else ⟨ok⟩

-- `Database.disconnect` (lines 68-72): afterwards `self._pool` is None.
def disconnectState (_ : DbState) : DbState :=
  ⟨false⟩

-- `Database._reconnect` (lines 74-76): disconnect, then connect; when the
-- connect fails the pool is left uninitialized.
def reconnectState (st : DbState) (ok : Bool) : DbState :=
  connectState (disconnectState st) ok

-- The DatabaseConnectionError raised by `connect` (lines 57-60).
def connectFailedMsg : String :=
  "Unable to connect to PostgreSQL. Check DATABASE_URL. On Render: prefer the Internal Database URL; if you use the External URL, ensure it has ?sslmode=require."

-- `Database.ping` (lines 78-84), with its final pool state: ping never
-- touches `self._pool`, so the state passes through on every path.
def pingS (st : DbState) (selectOne : Except Exc Int) :
    DbState × Except DbError Bool :=
  if st.poolUp = false then (st, .error (.connErr poolNotInitializedMsg))
  else
    match selectOne with
    | .error _ => (st, .error (.connErr ("Database connectivity check failed.")))
    | .ok v => (st, .ok (v == 1))

-- `Database.analyze_sites` (lines 98-273): require the pool, preflight the
-- tables, run the query with the retry loop, classify any final failure,
-- otherwise map rows to a FeatureCollection.
def analyze_sites {G J : Type} (ops : GeomOps G J) (st : DbState) (db : Db G)
    (f : Nat → FetchRes) (p : AnalysisParams) :
    Except DbError (FeatureCollection J) :=
  if st.poolUp = false then .error (.connErr poolNotInitializedMsg)
  else
    match ensure_analysis_tables db.tables with
    | some e => .error e
    | none =>
        match (analysisAttempts f).2 with
        | .gotRows => .ok (analysisResult ops db p)
        | .failed e => .error (classifyFinalError e)
        | .noRows => .error (classifyFinalError unknownFailureExc)

-- How the retry loop (lines 196-220) ends, seen from `analyze_sites`:
-- either the fetch succeeded, or the loop finished with a last exception to
-- classify, or an exception escaped the loop body directly — `_reconnect`'s
-- `connect` (line 211 via lines 56-60) or the re-run preflight (line 213)
-- raise out of `analyze_sites` unclassified.
inductive LoopOutcome where
  | rows
  | classify (e : Exc)
  | raised (err : DbError)
  | empty
deriving DecidableEq

-- The retry loop with its pool state.  Entered only with a pool present.
-- `r k` tells whether the reconnect performed after a failed attempt `k`
-- succeeds; when it fails, `disconnect` has already cleared the pool, so the
-- loop exits with the pool uninitialized and the connect error.
def runLoopS (f : Nat → FetchRes) (r : Nat → Bool) (tables : List String)
    (maxA : Nat) : Nat → Nat → DbState × LoopOutcome
  | _, 0 => (⟨true⟩, .empty)
  | k, n + 1 =>
      match f k with
      | .success => (⟨true⟩, .rows)
      | .failPg e =>
          if k < maxA - 1 ∧ is_transient_connection_error e = true then
            if r k = false then
              (reconnectState ⟨true⟩ false, .raised (.connErr connectFailedMsg))
            else
              match ensure_analysis_tables tables with
              | some err => (reconnectState ⟨true⟩ true, .raised err)
              | none => runLoopS f r tables maxA (k + 1) n
          else (⟨true⟩, .classify e)
      | .failOther e => (⟨true⟩, .classify e)

-- `Database.analyze_sites` with its final pool state: `_require_pool` raises
-- before any SQL when the pool is absent (state untouched); afterwards the
-- pool stays present unless a mid-retry reconnect fails.
def analyze_sitesS {G J : Type} (ops : GeomOps G J) (st : DbState) (db : Db G)
    (f : Nat → FetchRes) (r : Nat → Bool) (p : AnalysisParams) :
    DbState × Except DbError (FeatureCollection J) :=
  if st.poolUp = false then (st, .error (.connErr poolNotInitializedMsg))
  else
    match ensure_analysis_tables db.tables with
    | some e => (st, .error e)
    | none =>
        match runLoopS f r db.tables 3 0 3 with
        | (st', .rows) => (st', .ok (analysisResult ops db p))
        | (st', .classify e) => (st', .error (classifyFinalError e))
        | (st', .raised err) => (st', .error err)
        | (st', .empty) => (st', .error (classifyFinalError unknownFailureExc))

/-! ## `backend/main.py`: request validation and the HTTP layer -/

-- The request body: `none` models an omitted field.
structure AnalyzeBody where
  buffer_distance : Option Int
  exclude_nature : Option Bool
  min_area : Option ℚ
  max_grid_distance : Option Int
deriving DecidableEq

-- `AnalyzeRequest` (lines 38-42): defaults plus pydantic `ge`/`le` bounds.
def validateBody (b : AnalyzeBody) : Except String AnalysisParams :=
  let bd := b.buffer_distance.getD 500
  let en := b.exclude_nature.getD true
  let ma := b.min_area.getD 2
  let gd := b.max_grid_distance.getD 2000
  if bd < 0 ∨ 2000 < bd then .error ("buffer_distance out of range")
  else if ma < 1 / 10 then .error ("min_area out of range")
  else if gd < 100 ∨ 10000 < gd then .error ("max_grid_distance out of range")
  else .ok ⟨bd, en, ma, gd⟩

structure HttpResponse (J : Type) where
  status : Nat
  body : Option (FeatureCollection J)
  detail : Option String
deriving DecidableEq

-- `POST /api/analyze` (lines 69-82): FastAPI rejects an invalid body with a
-- 422 before the handler runs; the handler maps DatabaseConnectionError to
-- 503 and DatabaseQueryError to 500, each carrying the message.
def postAnalyze {J : Type} (dbCall : AnalysisParams → Except DbError (FeatureCollection J))
    (b : AnalyzeBody) : HttpResponse J :=
  match validateBody b with
  | .error m => ⟨422, none, some m⟩
  | .ok p =>
      match dbCall p with
      | .ok fc => ⟨200, some fc, none⟩
      | .error (.connErr m) => ⟨503, none, some m⟩
      | .error (.queryErr m) => ⟨500, none, some m⟩

def httpStatusOfError : DbError → Nat
  | .connErr _ => 503
  | .queryErr _ => 500

/-! ## Shared concrete instances used by witnesses and counterexamples -/

-- A concrete geometry interpretation: geometries are natural numbers,
-- nothing is empty, everything intersects, cuts and repairs are identities,
-- and two geometries are "within distance" iff they are equal.
def ops0 : GeomOps Nat String where
  buffer := fun g _ => g
  isEmpty := fun _ => false
  intersects := fun _ _ => true
  difference := fun g _ => g
  makeValid := fun g => g
  collectionExtract3 := fun g => g
  multi := fun g => g
  castMultiPolygon25832 := fun g => g
  dwithin := fun a b _ => a == b
  transform4326 := fun g => g
  asGeoJSON := fun g => toString g
  collect2 := fun a b => a + b
  unaryUnion := fun g => g
  jsonLoads := fun s => s

-- Two candidate parcels; the larger one (rank 1) is far from the grid, the
-- smaller one (rank 2) touches it.
def db0 : Db Nat where
  tables := requiredAnalysisTables
  candidate_parcels := [⟨10, "farmland", some 1⟩, ⟨5, "meadow", some 2⟩]
  exclusion_zones := []
  grid_infrastructure := [⟨some 2⟩]

def st0 : DbState := ⟨true⟩

def params0 : AnalysisParams := ⟨500, true, 2, 2000⟩

def fSucc : Nat → FetchRes := fun _ => .success

/-! ## C10: operations on an uninitialized pool -/

/-- C10: calling `analyze_sites` or `ping` while the pool is not initialized
raises DatabaseConnectionError with the message "Database pool is not
initialized." before any SQL (including the table preflight) runs — the
result and the final pool state are the same for every geometry
interpretation, database content, fetch behaviour and reconnect behaviour —
and the connection state is left unchanged; the `is_connected` property
equals pool-presence at every state, so in particular before and after both
operations. -/
theorem C10_uninitialized_pool (G J : Type) (ops : GeomOps G J) (db : Db G)
    (f : Nat → FetchRes) (r : Nat → Bool) (p : AnalysisParams)
    (selectOne : Except Exc Int) :
    analyze_sitesS ops ⟨false⟩ db f r p =
      (⟨false⟩, .error (.connErr poolNotInitializedMsg)) ∧
    pingS ⟨false⟩ selectOne = (⟨false⟩, .error (.connErr poolNotInitializedMsg)) ∧
    (∀ st : DbState, is_connected st = st.poolUp) ∧
    (∀ st : DbState,
      is_connected (analyze_sitesS ops st db f r p).1 =
        (analyze_sitesS ops st db f r p).1.poolUp ∧
      is_connected (pingS st selectOne).1 = (pingS st selectOne).1.poolUp) :=
  ⟨rfl, rfl, fun _ => rfl, fun _ => ⟨rfl, rfl⟩⟩

/-! ## C6: request validation -/

/-- C6: a request body whose `buffer_distance` is outside [0, 2000], whose
`max_grid_distance` is outside [100, 10000], or whose `min_area` is below 0.1
is rejected with a client error (HTTP 422) and the database layer is never
invoked (the response does not depend on it); omitted parameters take the
defaults buffer_distance=500, exclude_nature=true, min_area=2.0,
max_grid_distance=2000. -/
theorem C6_validation_rejects (J : Type) (b : AnalyzeBody) :
    (((b.buffer_distance.getD 500 < 0 ∨ 2000 < b.buffer_distance.getD 500) ∨
      (b.max_grid_distance.getD 2000 < 100 ∨ 10000 < b.max_grid_distance.getD 2000) ∨
      b.min_area.getD 2 < 1 / 10) →
      (∀ d1 d2 : AnalysisParams → Except DbError (FeatureCollection J),
        postAnalyze d1 b = postAnalyze d2 b) ∧
      (∀ d : AnalysisParams → Except DbError (FeatureCollection J),
        (postAnalyze d b).status = 422)) ∧
    validateBody ⟨none, none, none, none⟩ =
      .ok ⟨500, true, 2, 2000⟩ := by
  constructor
  · intro h
    have hv : ∃ m, validateBody b = Except.error m := by
      simp only [validateBody]
      split
      · exact ⟨_, rfl⟩
      · split
        · exact ⟨_, rfl⟩
        · split
          · exact ⟨_, rfl⟩
          · rename_i h1 h2 h3
            rcases h with h | h | h
            · exact absurd h h1
            · exact absurd h h3
            · exact absurd h h2
    obtain ⟨m, hm⟩ := hv
    refine ⟨fun d1 d2 => ?_, fun d => ?_⟩ <;> simp [postAnalyze, hm]
  · norm_num [validateBody]

/-! ## C5: table preflight -/

/-- C5: with an initialized pool, when any of the three required tables is
missing, `analyze_sites` raises a QueryError naming exactly the missing
tables and instructing to run the data-preparation script, without the
analysis query ever executing (the result is the same for every fetch
behaviour), and `/api/analyze` returns HTTP 500 carrying that message. -/
theorem C5_preflight_missing_tables (G J : Type) (ops : GeomOps G J)
    (st : DbState) (db : Db G) (f g : Nat → FetchRes) (p : AnalysisParams)
    (b : AnalyzeBody)
    (hpool : st.poolUp = true)
    (hmiss : missingTablesOf db.tables ≠ []) :
    analyze_sites ops st db f p =
      .error (.queryErr (missingTablesMsg (missingTablesOf db.tables))) ∧
    analyze_sites ops st db f p = analyze_sites ops st db g p ∧
    (validateBody b = .ok p →
      postAnalyze (analyze_sites ops st db f) b =
        ⟨500, none, some (missingTablesMsg (missingTablesOf db.tables))⟩) := by
  have htab : ensure_analysis_tables db.tables =
      some (.queryErr (missingTablesMsg (missingTablesOf db.tables))) := by
    unfold ensure_analysis_tables
    rw [if_neg]
    simp only [List.isEmpty_iff]
    exact hmiss
  have hres : analyze_sites ops st db f p =
      .error (.queryErr (missingTablesMsg (missingTablesOf db.tables))) := by
    unfold analyze_sites
    rw [if_neg (by simp [hpool]), htab]
  have hres' : analyze_sites ops st db g p =
      .error (.queryErr (missingTablesMsg (missingTablesOf db.tables))) := by
    unfold analyze_sites
    rw [if_neg (by simp [hpool]), htab]
  refine ⟨hres, hres.trans hres'.symm, fun hb => ?_⟩
  simp [postAnalyze, hb, hres]

-- Closed witness input for C5: only `exclusion_zones` exists.
def dbMissing : Db Nat where
  tables := ["exclusion_zones"]
  candidate_parcels := []
  exclusion_zones := []
  grid_infrastructure := []

/-- C5 witness: on a database where `candidate_parcels` and
`grid_infrastructure` are missing, `analyze_sites` raises the QueryError
naming exactly those two tables and the endpoint answers 500 with it. -/
theorem C5_preflight_missing_tables_witness :
    analyze_sites ops0 st0 dbMissing fSucc params0 =
      .error (.queryErr (missingTablesMsg ["candidate_parcels", "grid_infrastructure"])) ∧
    postAnalyze (analyze_sites ops0 st0 dbMissing fSucc) ⟨none, none, none, none⟩ =
      ⟨500, none, some (missingTablesMsg ["candidate_parcels", "grid_infrastructure"])⟩ := by
  have h := C5_preflight_missing_tables Nat String ops0 st0 dbMissing fSucc fSucc
    params0 ⟨none, none, none, none⟩ (by decide) (by decide)
  have hm : missingTablesOf dbMissing.tables = ["candidate_parcels", "grid_infrastructure"] := by
    decide
  exact ⟨hm ▸ h.1, hm ▸ h.2.2 (by norm_num [validateBody, params0])⟩

/-! ## C8: database-URL normalization (refinement against the spec text) -/

/-- C8: the database-URL normalization appends `sslmode=require` if and only
if the URL scheme is postgres/postgresql, the hostname ends with the managed
hosting suffix (`render.com`) and no `sslmode` query parameter is present,
and in every other case — including non-string and blank input — passes the
value through unchanged: the source function coincides with the function
written from the spec's words. -/
theorem C8_normalize_database_url (v : SettingVal) :
    normalize_database_url v = normalize_database_url_spec v := by
  cases v with
  | other => rfl
  | str s =>
      simp only [normalize_database_url, normalize_database_url_spec]
      by_cases hraw : pyStrip s = ""
      · simp [hraw]
      · simp only [if_neg hraw]
        by_cases hA : (urlparseL (pyStrip s).data).scheme = ("postgres").data ∨
            (urlparseL (pyStrip s).data).scheme = ("postgresql").data
        · by_cases hB : trailsWith (("render.com").data)
              (lowerL (hostnameOfNetloc (urlparseL (pyStrip s).data).netloc)) = true
          · by_cases hC : ((qslToDict (parseQsl (urlparseL (pyStrip s).data).query)).any
                (fun p => p.1 == ("sslmode").data)) = true
            · simp [hA, hB, hC]
            · simp [hA, hB, hC, appendSslResult]
          · simp [hA, hB]
        · simp [hA]

instance {ε α : Type} [DecidableEq ε] [DecidableEq α] : DecidableEq (Except ε α) := fun x y =>
  match x, y with
  | .ok a, .ok b =>
      if h : a = b then .isTrue (by rw [h])
      else .isFalse (by intro hxy; cases hxy; exact h rfl)
  | .error a, .error b =>
      if h : a = b then .isTrue (by rw [h])
      else .isFalse (by intro hxy; cases hxy; exact h rfl)
  | .ok _, .error _ => .isFalse (by intro h; cases h)
  | .error _, .ok _ => .isFalse (by intro h; cases h)

-- When every reconnect succeeds, the stateful loop keeps the pool and agrees
-- with the trace-level loop used for the retry-policy analysis.
theorem runLoopS_all_reconnects_ok (f : Nat → FetchRes) (tables : List String)
    (h : ensure_analysis_tables tables = none) (maxA : Nat) :
    ∀ (n k : Nat), runLoopS f (fun _ => true) tables maxA k n =
      (⟨true⟩, match (runLoop f maxA k n).2 with
        | .gotRows => LoopOutcome.rows
        | .failed e => LoopOutcome.classify e
        | .noRows => LoopOutcome.empty) := by
  intro n
  induction n with
  | zero => intro k; rfl
  | succ n ih =>
      intro k
      cases hf : f k with
      | success => simp [runLoopS, runLoop, hf]
      | failPg e =>
          by_cases hc : k < maxA - 1 ∧ is_transient_connection_error e = true
          · simp [runLoopS, runLoop, hf, hc, h, ih]
          · simp [runLoopS, runLoop, hf, hc]
      | failOther e => simp [runLoopS, runLoop, hf]

-- The stateful operation returns the same result as the result-level
-- `analyze_sites` whenever no mid-retry reconnect fails.
theorem analyze_sitesS_result (G J : Type) (ops : GeomOps G J) (st : DbState)
    (db : Db G) (f : Nat → FetchRes) (p : AnalysisParams) :
    (analyze_sitesS ops st db f (fun _ => true) p).2 = analyze_sites ops st db f p := by
  unfold analyze_sitesS analyze_sites
  by_cases hp : st.poolUp = false
  · rw [if_pos hp, if_pos hp]
  · rw [if_neg hp, if_neg hp]
    cases htab : ensure_analysis_tables db.tables with
    | some e => simp
    | none =>
        simp only []
        rw [runLoopS_all_reconnects_ok f db.tables htab 3 3 0]
        cases hl : (runLoop f 3 0 3).2 <;> simp [analysisAttempts, hl]

-- The path the pure result model cannot show: a transient failure followed
-- by a failed reconnect exits `analyze_sites` with the connect error and the
-- pool torn down — `is_connected` flips from true to false.
theorem reconnect_failure_drops_pool :
    analyze_sitesS ops0 st0 db0
        (fun _ => .failPg ⟨some ("08006"), "connection was closed"⟩)
        (fun _ => false) params0 =
      (⟨false⟩, .error (.connErr connectFailedMsg)) ∧
    is_connected st0 = true ∧
    is_connected (⟨false⟩ : DbState) = false :=
  ⟨by decide, rfl, rfl⟩

/-- C6 witness: a body with buffer_distance 3000 gets HTTP 422 no matter what
the database layer would answer. -/
theorem C6_validation_rejects_witness :
    (postAnalyze (J := Unit) (fun _ => .ok ⟨[]⟩) ⟨some 3000, none, none, none⟩).status = 422 :=
  ((C6_validation_rejects Unit ⟨some 3000, none, none, none⟩).1
    (Or.inl (Or.inr (by decide)))).2 _

/-! ## C4: error classification of the final failure -/

/-- C4: when the analysis query fails, the final exception is classified into
exactly one of the two error kinds: a transient-connection signature raises
ConnectionError advising retry; otherwise SQLSTATE 42P01, SQLSTATE 42883, a
"mixed SRID" message and a "TopologyException" message each raise their
distinct actionable QueryError; every other failure raises a QueryError
carrying the underlying SQLSTATE and the (whitespace-normalized) message;
`analyze_sites` surfaces the classified error, and the HTTP layer maps
ConnectionError to 503 and QueryError to 500. -/
theorem C4_error_classification :
    (∀ e : Exc, is_transient_connection_error e = true →
      classifyFinalError e = .connErr connDroppedMsg) ∧
    (∀ e : Exc, is_transient_connection_error e = false →
      e.sqlstate.getD ("unknown") = "42P01" →
      classifyFinalError e = .queryErr missingTablesGenericMsg) ∧
    (∀ e : Exc, is_transient_connection_error e = false →
      e.sqlstate.getD ("unknown") ≠ "42P01" →
      e.sqlstate.getD ("unknown") = "42883" →
      classifyFinalError e = .queryErr postgisMissingMsg) ∧
    (∀ e : Exc, is_transient_connection_error e = false →
      e.sqlstate.getD ("unknown") ≠ "42P01" →
      e.sqlstate.getD ("unknown") ≠ "42883" →
      strHasSub (normMessage e.message) ("mixed SRID") = true →
      classifyFinalError e = .queryErr mixedSridMsg) ∧
    (∀ e : Exc, is_transient_connection_error e = false →
      e.sqlstate.getD ("unknown") ≠ "42P01" →
      e.sqlstate.getD ("unknown") ≠ "42883" →
      strHasSub (normMessage e.message) ("mixed SRID") = false →
      strHasSub (normMessage e.message) ("TopologyException") = true →
      classifyFinalError e = .queryErr topologyMsg) ∧
    (∀ e : Exc, is_transient_connection_error e = false →
      e.sqlstate.getD ("unknown") ≠ "42P01" →
      e.sqlstate.getD ("unknown") ≠ "42883" →
      strHasSub (normMessage e.message) ("mixed SRID") = false →
      strHasSub (normMessage e.message) ("TopologyException") = false →
      classifyFinalError e = .queryErr
        ("Spatial analysis query failed (sqlstate " ++ e.sqlstate.getD ("unknown") ++
          "): " ++ normMessage e.message)) ∧
    (∀ e : Exc, (∃ m, classifyFinalError e = .connErr m) ∨
      (∃ m, classifyFinalError e = .queryErr m)) ∧
    (∀ m, httpStatusOfError (.connErr m) = 503) ∧
    (∀ m, httpStatusOfError (.queryErr m) = 500) ∧
    (∀ (G J : Type) (ops : GeomOps G J) (st : DbState) (db : Db G)
        (f : Nat → FetchRes) (p : AnalysisParams) (e : Exc),
      st.poolUp = true → ensure_analysis_tables db.tables = none →
      (analysisAttempts f).2 = .failed e →
      analyze_sites ops st db f p = .error (classifyFinalError e)) ∧
    (∀ (J : Type) (dbCall : AnalysisParams → Except DbError (FeatureCollection J))
        (b : AnalyzeBody) (p : AnalysisParams) (m : String),
      validateBody b = .ok p → dbCall p = .error (.connErr m) →
      postAnalyze dbCall b = ⟨503, none, some m⟩) ∧
    (∀ (J : Type) (dbCall : AnalysisParams → Except DbError (FeatureCollection J))
        (b : AnalyzeBody) (p : AnalysisParams) (m : String),
      validateBody b = .ok p → dbCall p = .error (.queryErr m) →
      postAnalyze dbCall b = ⟨500, none, some m⟩) := by
  refine ⟨?_, ?_, ?_, ?_, ?_, ?_, ?_, fun m => rfl, fun m => rfl, ?_, ?_, ?_⟩
  · intro e h
    simp [classifyFinalError, h]
  · intro e ht h42
    simp [classifyFinalError, ht, h42]
  · intro e ht h1 h2
    simp [classifyFinalError, ht, h1, h2]
  · intro e ht h1 h2 h3
    simp [classifyFinalError, ht, h1, h2, h3]
  · intro e ht h1 h2 h3 h4
    simp [classifyFinalError, ht, h1, h2, h3, h4]
  · intro e ht h1 h2 h3 h4
    simp [classifyFinalError, ht, h1, h2, h3, h4]
  · intro e
    cases hc : classifyFinalError e with
    | connErr m => exact Or.inl ⟨m, rfl⟩
    | queryErr m => exact Or.inr ⟨m, rfl⟩
  · intro G J ops st db f p e hpool htab hfail
    simp [analyze_sites, hpool, htab, hfail]
  · intro J dbCall b p m hb hd
    simp [postAnalyze, hb, hd]
  · intro J dbCall b p m hb hd
    simp [postAnalyze, hb, hd]

/-- C4 witness: a missing-relation error (SQLSTATE 42P01) is classified as
the missing-tables QueryError, and a dropped-connection error (SQLSTATE
08006) as the retry-advising ConnectionError. -/
theorem C4_error_classification_witness :
    classifyFinalError ⟨some ("42P01"), "relation does not exist"⟩ =
      .queryErr missingTablesGenericMsg ∧
    classifyFinalError ⟨some ("08006"), "server closed the socket"⟩ =
      .connErr connDroppedMsg :=
  ⟨C4_error_classification.2.1 ⟨some ("42P01"), "relation does not exist"⟩
      (by decide) (by decide),
   C4_error_classification.1 ⟨some ("08006"), "server closed the socket"⟩ (by decide)⟩

/-! ## C3: the retry loop -/

-- An attempt outcome that triggers the retry branch: a PostgresError /
-- InterfaceError whose signature is transient.
def isRetryableRes : FetchRes → Bool
  | .failPg e => is_transient_connection_error e
  | _ => false

-- How many retries the 3-attempt loop performs for a given outcome function.
def retriesOf (f : Nat → FetchRes) : Nat :=
  if isRetryableRes (f 0) then (if isRetryableRes (f 1) then 2 else 1) else 0

-- The expected action trace of the first `n` (failed, retried) attempts.
def retryActions : Nat → List LoopAction
  | 0 => []
  | n + 1 => retryActions n ++
      [.fetch, .reconnect, .preflight, .sleepMs (250 * (n + 1))]

theorem isRetryableRes_eq_true (r : FetchRes) :
    isRetryableRes r = true ↔
      ∃ e, r = .failPg e ∧ is_transient_connection_error e = true := by
  cases r <;> simp [isRetryableRes]

theorem retryActions_count_fetch (n : Nat) :
    (retryActions n).count LoopAction.fetch = n := by
  induction n with
  | zero => rfl
  | succ n ih =>
      simp [retryActions, List.count_append, ih, List.count_cons]

/-- C3: the retry loop fetches at most 3 times; it retries only on attempts
whose failure is a PostgresError/InterfaceError with a transient-connection
signature; each retry reconnects (pool teardown and rebuild), re-runs the
table preflight and sleeps 250ms times the attempt number, in that order;
a non-retryable outcome ends the loop immediately with that outcome. -/
theorem C3_retry_policy (f : Nat → FetchRes) :
    (analysisAttempts f).1 = retryActions (retriesOf f) ++ [.fetch] ∧
    retriesOf f ≤ 2 ∧
    (analysisAttempts f).1.count .fetch = retriesOf f + 1 ∧
    (analysisAttempts f).1.count .fetch ≤ 3 ∧
    (∀ i, i < retriesOf f → isRetryableRes (f i) = true) ∧
    (retriesOf f < 2 → isRetryableRes (f (retriesOf f)) = false) ∧
    ((analysisAttempts f).2 = match f (retriesOf f) with
      | .success => .gotRows
      | .failPg e => .failed e
      | .failOther e => .failed e) := by
  have base : ∀ k, (match f k with
      | .success => ([LoopAction.fetch], LoopResult.gotRows)
      | .failPg e => ([LoopAction.fetch], LoopResult.failed e)
      | .failOther e => ([LoopAction.fetch], LoopResult.failed e)) =
      (([LoopAction.fetch] : List LoopAction), (match f k with
        | .success => LoopResult.gotRows
        | .failPg e => LoopResult.failed e
        | .failOther e => LoopResult.failed e)) := by
    intro k
    cases f k <;> rfl
  by_cases h0 : isRetryableRes (f 0) = true
  · obtain ⟨e0, hf0, ht0⟩ := (isRetryableRes_eq_true (f 0)).mp h0
    by_cases h1 : isRetryableRes (f 1) = true
    · obtain ⟨e1, hf1, ht1⟩ := (isRetryableRes_eq_true (f 1)).mp h1
      have hr : retriesOf f = 2 := by simp [retriesOf, h0, h1]
      have hlast : runLoop f 3 2 1 = ([LoopAction.fetch], (match f 2 with
          | .success => LoopResult.gotRows
          | .failPg e => LoopResult.failed e
          | .failOther e => LoopResult.failed e)) := by
        cases hf2 : f 2 with
        | success => simp [runLoop, hf2]
        | failPg e2 => simp [runLoop, hf2]
        | failOther e2 => simp [runLoop, hf2]
      have htrace : analysisAttempts f =
          (LoopAction.fetch :: LoopAction.reconnect :: LoopAction.preflight ::
            LoopAction.sleepMs 250 :: LoopAction.fetch :: LoopAction.reconnect ::
            LoopAction.preflight :: LoopAction.sleepMs 500 :: (runLoop f 3 2 1).1,
           (runLoop f 3 2 1).2) := by
        simp [analysisAttempts, runLoop, hf0, ht0, hf1, ht1]
      rw [hr, htrace, hlast]
      refine ⟨by simp [retryActions], by omega, ?_, ?_, ?_, by omega, rfl⟩
      · simp [List.count_cons, List.count_nil]
      · simp [List.count_cons, List.count_nil]
      · intro i hi
        interval_cases i
        · exact h0
        · exact h1
    · have hr : retriesOf f = 1 := by simp [retriesOf, h0, h1]
      have hlast : runLoop f 3 1 2 = ([LoopAction.fetch], (match f 1 with
          | .success => LoopResult.gotRows
          | .failPg e => LoopResult.failed e
          | .failOther e => LoopResult.failed e)) := by
        cases hf1 : f 1 with
        | success => simp [runLoop, hf1]
        | failPg e1 =>
            have : is_transient_connection_error e1 = false := by
              have := h1
              rw [hf1] at this
              simpa [isRetryableRes] using this
            simp [runLoop, hf1, this]
        | failOther e1 => simp [runLoop, hf1]
      have htrace : analysisAttempts f =
          (LoopAction.fetch :: LoopAction.reconnect :: LoopAction.preflight ::
            LoopAction.sleepMs 250 :: (runLoop f 3 1 2).1, (runLoop f 3 1 2).2) := by
        simp [analysisAttempts, runLoop, hf0, ht0]
      rw [hr, htrace, hlast]
      refine ⟨by simp [retryActions], by omega, ?_, ?_, ?_, ?_, rfl⟩
      · simp [List.count_cons, List.count_nil]
      · simp [List.count_cons, List.count_nil]
      · intro i hi
        interval_cases i
        exact h0
      · intro _
        simpa using h1
  · have hr : retriesOf f = 0 := by simp [retriesOf, h0]
    have hlast : analysisAttempts f = ([LoopAction.fetch], (match f 0 with
        | .success => LoopResult.gotRows
        | .failPg e => LoopResult.failed e
        | .failOther e => LoopResult.failed e)) := by
      cases hf0 : f 0 with
      | success => simp [analysisAttempts, runLoop, hf0]
      | failPg e0 =>
          have : is_transient_connection_error e0 = false := by
            have := h0
            rw [hf0] at this
            simpa [isRetryableRes] using this
          simp [analysisAttempts, runLoop, hf0, this]
      | failOther e0 => simp [analysisAttempts, runLoop, hf0]
    rw [hr, hlast]
    refine ⟨by simp [retryActions], by omega, ?_, ?_, ?_, ?_, rfl⟩
    · simp [List.count_cons, List.count_nil]
    · simp [List.count_cons, List.count_nil]
    · intro i hi
      omega
    · intro _
      simpa using h0

-- A fetch behaviour that fails transiently once, then succeeds.
def fRetryOnce : Nat → FetchRes := fun k =>
  if k = 0 then .failPg ⟨some ("08006"), "connection was closed"⟩ else .success

/-- C3 witness: with one transient failure followed by success, the loop
fetches, reconnects, preflights, sleeps 250ms, fetches again, and succeeds. -/
theorem C3_retry_policy_witness :
    (analysisAttempts fRetryOnce).1 =
      [.fetch, .reconnect, .preflight, .sleepMs 250, .fetch] ∧
    isRetryableRes (fRetryOnce 0) = true ∧
    (analysisAttempts fRetryOnce).2 = .gotRows := by
  refine ⟨(C3_retry_policy fRetryOnce).1.trans (by decide),
    (C3_retry_policy fRetryOnce).2.2.2.2.1 0 (by decide), ?_⟩
  have h := (C3_retry_policy fRetryOnce).2.2.2.2.2.2
  rw [h]
  decide

/-! ## C9: CORS-origins normalization (refinement against the spec text) -/

-- Modelled from the spec: "accept either a native list, a JSON array string
-- (parsed and trimmed, falling back to a single-element list containing the
-- raw string if JSON parsing fails or yields a non-list), or a
-- comma-separated string (split, trimmed, empties removed).  An empty/blank
-- string normalizes to an empty list."  Note the JSON branch keeps every
-- parsed element (trimmed), with no removal of blank entries.
def parse_cors_origins_spec (jloads : String → Option PyAny) (value : CorsVal) : CorsVal :=
  match value with
  | .vstr s =>
      let raw := pyStrip s
      if raw = "" then .vlist []
      else if strLeads raw ("[") then
        match jloads raw with
        | none => .vlist [raw]
        | some (.plist items) => .vlist (items.map (fun it => pyStrip (pyStr it)))
        | some _ => .vlist [raw]
      else
        .vlist ((splitOnCharL ',' raw.data).filterMap (fun piece =>
          let t := pyStripL piece
          if t = [] then none else some (⟨t⟩ : String)))
  | .vlist xs => .vlist xs
  | .vother => .vother

-- The amended JSON branch: parsed elements stringified and trimmed, with
-- entries that trim to the empty string removed.
def parse_cors_origins_amended (jloads : String → Option PyAny) (value : CorsVal) : CorsVal :=
  match value with
  | .vstr s =>
      let raw := pyStrip s
      if raw = "" then .vlist []
      else if strLeads raw ("[") then
        match jloads raw with
        | none => .vlist [raw]
        | some (.plist items) =>
            .vlist ((items.map (fun it => pyStrip (pyStr it))).filter (fun t => !(t == "")))
        | some _ => .vlist [raw]
      else
        .vlist ((splitOnCharL ',' raw.data).filterMap (fun piece =>
          let t := pyStripL piece
          if t = [] then none else some (⟨t⟩ : String)))
  | .vlist xs => .vlist xs
  | .vother => .vother

-- A `json.loads` stand-in agreeing with Python on the counterexample input:
-- json.loads("[\"a\", \"\"]") is the list ["a", ""].
def jloadsCex : String → Option PyAny := fun s =>
  if s = "[\"a\", \"\"]" then some (.plist [.pstr ("a"), .pstr ("")]) else none

/-- C9 counterexample: on the JSON array string `["a", ""]` the code drops
the blank element and returns `["a"]`, while the claimed mapping ("the
parsed, trimmed element list") yields `["a", ""]`; the claim as stated is
false. -/
theorem C9_cors_counterexample :
    parse_cors_origins jloadsCex (.vstr ("[\"a\", \"\"]")) = .vlist ["a"] ∧
    parse_cors_origins_spec jloadsCex (.vstr ("[\"a\", \"\"]")) = .vlist ["a", ""] ∧
    parse_cors_origins jloadsCex (.vstr ("[\"a\", \"\"]")) ≠
      parse_cors_origins_spec jloadsCex (.vstr ("[\"a\", \"\"]")) := by
  refine ⟨by decide, by decide, by decide⟩

theorem filterMap_strip_eq_filter_map (items : List PyAny) :
    items.filterMap (fun it =>
        let t := pyStrip (pyStr it)
        if t = "" then none else some t) =
      (items.map (fun it => pyStrip (pyStr it))).filter (fun t => !(t == "")) := by
  induction items with
  | nil => rfl
  | cons it items ih =>
      simp only [List.filterMap_cons, List.map_cons, List.filter_cons]
      by_cases h : pyStrip (pyStr it) = ""
      · simp [h, ih]
      · simp [h, ih]

/-- C9 (amended): the CORS-origins normalization maps a native list to
itself; a string starting a JSON array to the parsed element list with each
element stringified and trimmed and entries that trim to empty removed,
falling back to a single-element list containing the raw trimmed string when
JSON parsing fails or yields a non-list; any other non-blank string to the
comma-split, trimmed list with empty entries removed; and an empty or
all-whitespace string to the empty list. -/
theorem C9_cors_amended (jloads : String → Option PyAny) (value : CorsVal) :
    parse_cors_origins jloads value = parse_cors_origins_amended jloads value := by
  cases value with
  | vlist xs => rfl
  | vother => rfl
  | vstr s =>
      simp only [parse_cors_origins, parse_cors_origins_amended]
      by_cases hraw : pyStrip s = ""
      · simp [hraw]
      · rw [if_neg hraw, if_neg hraw]
        by_cases hbr : strLeads (pyStrip s) "[" = true
        · rw [if_pos hbr, if_pos hbr]
          cases hj : jloads (pyStrip s) with
          | none => rfl
          | some v =>
              cases v with
              | pstr t => rfl
              | pother t => rfl
              | plist items => simp [filterMap_strip_eq_filter_map]
        · rw [if_neg hbr, if_neg hbr]

/-! ## Pipeline structure lemmas for C1, C2, C7 -/

-- The per-parcel effect of the cut/clean/grid/final stages, fused: what the
-- query keeps of one ranked parcel.
def stepFn {G J : Type} (ops : GeomOps G J) (excl : Option G) (maxD : Int)
    (grid : List (GridRow G)) (p : RankedParcel G) : Option FeatureRow :=
  let g1 := cutGeom ops excl p.geom
  if ops.isEmpty g1 = true then none
  else
    let g2 := cleanGeom ops g1
    if nearGridPred ops maxD grid g2 = false then none
    else if ops.isEmpty g2 = true then none
    else some ⟨p.id, p.area_ha, p.landuse, ops.asGeoJSON (ops.transform4326 g2)⟩

theorem parcelsCutCTE_cons {G J : Type} (ops : GeomOps G J) (excl : Option G)
    (p : RankedParcel G) (ps : List (RankedParcel G)) :
    parcelsCutCTE ops excl (p :: ps) =
      { p with geom := cutGeom ops excl p.geom } :: parcelsCutCTE ops excl ps := by
  simp [parcelsCutCTE]

theorem cleanedCTE_cons {G J : Type} (ops : GeomOps G J)
    (p : RankedParcel G) (ps : List (RankedParcel G)) :
    cleanedCTE ops (p :: ps) =
      if ops.isEmpty p.geom = true then cleanedCTE ops ps
      else { p with geom := cleanGeom ops p.geom } :: cleanedCTE ops ps := by
  unfold cleanedCTE
  rw [List.filter_cons]
  by_cases h : ops.isEmpty p.geom = true
  · simp [h]
  · simp [h]

theorem nearGridCTE_cons {G J : Type} (ops : GeomOps G J) (maxD : Int)
    (grid : List (GridRow G)) (p : RankedParcel G) (ps : List (RankedParcel G)) :
    nearGridCTE ops maxD grid (p :: ps) =
      if nearGridPred ops maxD grid p.geom = true then p :: nearGridCTE ops maxD grid ps
      else nearGridCTE ops maxD grid ps := by
  unfold nearGridCTE
  rw [List.filter_cons]

theorem finalSelect_cons {G J : Type} (ops : GeomOps G J)
    (p : RankedParcel G) (ps : List (RankedParcel G)) :
    finalSelect ops (p :: ps) =
      if ops.isEmpty p.geom = true then finalSelect ops ps
      else ⟨p.id, p.area_ha, p.landuse, ops.asGeoJSON (ops.transform4326 p.geom)⟩ ::
        finalSelect ops ps := by
  unfold finalSelect
  rw [List.filter_cons]
  by_cases h : ops.isEmpty p.geom = true
  · simp [h]
  · simp [h]

theorem downstream_eq_filterMap {G J : Type} (ops : GeomOps G J) (excl : Option G)
    (maxD : Int) (grid : List (GridRow G)) (ps : List (RankedParcel G)) :
    finalSelect ops (nearGridCTE ops maxD grid (cleanedCTE ops (parcelsCutCTE ops excl ps)))
      = ps.filterMap (stepFn ops excl maxD grid) := by
  induction ps with
  | nil => rfl
  | cons p ps ih =>
      rw [parcelsCutCTE_cons, cleanedCTE_cons]
      by_cases h1 : ops.isEmpty (cutGeom ops excl p.geom) = true
      · rw [if_pos (by exact h1), List.filterMap_cons_none (by simp [stepFn, h1])]
        exact ih
      · rw [if_neg (by exact h1), nearGridCTE_cons]
        by_cases h2 : nearGridPred ops maxD grid (cleanGeom ops (cutGeom ops excl p.geom)) = true
        · rw [if_pos (by exact h2), finalSelect_cons]
          by_cases h3 : ops.isEmpty (cleanGeom ops (cutGeom ops excl p.geom)) = true
          · rw [if_pos (by exact h3),
              List.filterMap_cons_none (by simp [stepFn, h1, h2, h3])]
            exact ih
          · have hstep : stepFn ops excl maxD grid p =
                some ⟨p.id, p.area_ha, p.landuse,
                  ops.asGeoJSON (ops.transform4326 (cleanGeom ops (cutGeom ops excl p.geom)))⟩ := by
              simp [stepFn, h1, h2, h3]
            rw [if_neg (by exact h3), List.filterMap_cons_some hstep]
            exact congrArg _ ih
        · rw [if_neg (by exact h2),
            List.filterMap_cons_none (by simp [stepFn, h1, h2])]
          exact ih

theorem stepFn_some_fields {G J : Type} (ops : GeomOps G J) (excl : Option G)
    (maxD : Int) (grid : List (GridRow G)) (p : RankedParcel G) (r : FeatureRow)
    (h : stepFn ops excl maxD grid p = some r) :
    r.id = p.id ∧ r.area_ha = p.area_ha ∧ r.landuse = p.landuse := by
  simp only [stepFn] at h
  by_cases h1 : ops.isEmpty (cutGeom ops excl p.geom) = true
  · simp [h1] at h
  · by_cases h2 : nearGridPred ops maxD grid (cleanGeom ops (cutGeom ops excl p.geom)) = false
    · simp [h1, h2] at h
    · by_cases h3 : ops.isEmpty (cleanGeom ops (cutGeom ops excl p.geom)) = true
      · simp [h1, h2, h3] at h
      · rw [if_neg h1, if_neg (by simpa using h2), if_neg h3] at h
        have h' := Option.some.inj h
        subst h'
        exact ⟨rfl, rfl, rfl⟩

theorem map_filterMap_sublist {α β γ : Type} (f : α → Option β) (g : β → γ) (h : α → γ)
    (H : ∀ a b, f a = some b → g b = h a) (l : List α) :
    ((l.filterMap f).map g).Sublist (l.map h) := by
  induction l with
  | nil => simp
  | cons a l ih =>
      cases hfa : f a with
      | none =>
          rw [List.filterMap_cons_none hfa, List.map_cons]
          exact ih.trans (List.sublist_cons_self _ _)
      | some b =>
          rw [List.filterMap_cons_some hfa, List.map_cons, List.map_cons, H a b hfa]
          exact ih.cons₂ _

theorem analysisQueryRows_eq {G J : Type} (ops : GeomOps G J) (db : Db G)
    (p : AnalysisParams) :
    analysisQueryRows ops db p =
      (parcelsCTE ops p.min_area db.candidate_parcels).filterMap
        (stepFn ops
          (exclusionsCTE ops p.buffer_distance p.exclude_nature db.exclusion_zones)
          p.max_grid_distance db.grid_infrastructure) := by
  unfold analysisQueryRows
  exact downstream_eq_filterMap _ _ _ _ _

theorem parcelsCTE_map_id {G J : Type} (ops : GeomOps G J) (m : ℚ)
    (rows : List (ParcelRow G)) :
    (parcelsCTE ops m rows).map (fun q => q.id) =
      List.range' 1 (parcelsCTE ops m rows).length := by
  unfold parcelsCTE
  rw [List.map_map, List.length_map, List.enumFrom_length]
  have hc : ((fun q : RankedParcel G => q.id) ∘
      fun pr : Nat × CandParcel G =>
        (⟨pr.1, pr.2.area_ha, pr.2.landuse, pr.2.geom⟩ : RankedParcel G)) = Prod.fst := rfl
  rw [hc, List.enumFrom_map_fst]

theorem parcelsCTE_pairwise_key {G J : Type} (ops : GeomOps G J) (m : ℚ)
    (rows : List (ParcelRow G)) :
    ((parcelsCTE ops m rows).map (fun q => (q.area_ha, q.landuse))).Pairwise byAreaLanduse := by
  unfold parcelsCTE
  rw [List.map_map]
  have hsorted : ((rows.filterMap (candFilter ops m)).insertionSort candLE).Pairwise candLE :=
    List.sorted_insertionSort candLE _
  have h2 : (((rows.filterMap (candFilter ops m)).insertionSort candLE).enumFrom 1).Pairwise
      (fun a b : Nat × CandParcel G => candLE a.2 b.2) := by
    rw [← List.enumFrom_map_snd 1
      ((rows.filterMap (candFilter ops m)).insertionSort candLE)] at hsorted
    exact List.pairwise_map.mp hsorted
  exact List.pairwise_map.mpr h2

theorem parcelsCTE_mem_original {G J : Type} (ops : GeomOps G J) (m : ℚ)
    (rows : List (ParcelRow G)) (rp : RankedParcel G)
    (h : rp ∈ parcelsCTE ops m rows) :
    ∃ row ∈ rows, rp.area_ha = row.area_ha ∧ rp.landuse = row.landuse := by
  unfold parcelsCTE at h
  obtain ⟨pr, hpr, rfl⟩ := List.mem_map.mp h
  obtain ⟨i, c⟩ := pr
  have hsnd : c ∈ (rows.filterMap (candFilter ops m)).insertionSort candLE := by
    have := List.mem_map_of_mem Prod.snd hpr
    rwa [List.enumFrom_map_snd] at this
  have hmem : c ∈ rows.filterMap (candFilter ops m) := by
    rwa [List.mem_insertionSort] at hsnd
  obtain ⟨row, hrow, hcf⟩ := List.mem_filterMap.mp hmem
  refine ⟨row, hrow, ?_⟩
  cases hg : row.geom with
  | none => simp [candFilter, hg] at hcf
  | some g =>
      simp only [candFilter, hg] at hcf
      split_ifs at hcf
      cases hcf
      exact ⟨rfl, rfl⟩

theorem analyze_sites_ok_eq {G J : Type} (ops : GeomOps G J) (st : DbState)
    (db : Db G) (f : Nat → FetchRes) (p : AnalysisParams)
    (fc : FeatureCollection J) (h : analyze_sites ops st db f p = .ok fc) :
    fc = analysisResult ops db p := by
  unfold analyze_sites at h
  by_cases hp : st.poolUp = false
  · rw [if_pos hp] at h
    simp at h
  · rw [if_neg hp] at h
    cases htab : ensure_analysis_tables db.tables with
    | some e =>
        rw [htab] at h
        simp at h
    | none =>
        rw [htab] at h
        cases hl : (analysisAttempts f).2 with
        | gotRows =>
            rw [hl] at h
            injection h with h
            exact h.symm
        | failed e =>
            rw [hl] at h
            simp at h
        | noRows =>
            rw [hl] at h
            simp at h

/-! ## C1: output ids and areas -/

/-- C1 counterexample: a successful analyzeSites call on a database with two
candidate parcels, where the top-ranked parcel is beyond the grid distance,
returns one feature whose id is 2 — the returned features' ids are not a
dense 1-based sequence (1..n with no gaps over the returned features), so the
claim as stated is false. -/
theorem C1_counterexample :
    analyze_sites ops0 st0 db0 fSucc params0 =
      .ok ⟨[⟨"2", 2, 5, "meadow"⟩]⟩ ∧
    ¬((⟨[⟨"2", 2, 5, "meadow"⟩]⟩ : FeatureCollection String).features.map (fun ft => ft.id) =
        List.range' 1 ((⟨[⟨"2", 2, 5, "meadow"⟩]⟩ : FeatureCollection String).features.length)) := by
  exact ⟨by decide, by decide⟩

/-- C1 (amended): for every successful analyzeSites call, the ranks 1..N are
assigned densely over the min-area-filtered candidate set ordered by
descending area then land-use code, before any exclusion cutting or
grid-distance filtering; the returned features' `id`s form a strictly
increasing subsequence of those ranks (gaps are possible where parcels were
cut or filtered away), each feature's id/area_ha/landuse come from its ranked
parcel, and every ranked parcel's area_ha and landuse are those of an
original candidate row — exclusion cuts never change `area_ha`. -/
theorem C1_rank_and_area (G J : Type) (ops : GeomOps G J) (st : DbState)
    (db : Db G) (f : Nat → FetchRes) (p : AnalysisParams)
    (fc : FeatureCollection J) (h : analyze_sites ops st db f p = .ok fc) :
    ((parcelsCTE ops p.min_area db.candidate_parcels).map (fun q => q.id) =
      List.range' 1 (parcelsCTE ops p.min_area db.candidate_parcels).length) ∧
    (fc.features.map (fun ft => ft.id)).Sublist
      ((parcelsCTE ops p.min_area db.candidate_parcels).map (fun q => q.id)) ∧
    (fc.features.map (fun ft => ft.id)).Pairwise (· < ·) ∧
    (∀ ft ∈ fc.features, ∃ rp ∈ parcelsCTE ops p.min_area db.candidate_parcels,
      ft.id = rp.id ∧ ft.area_ha = rp.area_ha ∧ ft.landuse = rp.landuse) ∧
    (∀ rp ∈ parcelsCTE ops p.min_area db.candidate_parcels,
      ∃ row ∈ db.candidate_parcels,
        rp.area_ha = row.area_ha ∧ rp.landuse = row.landuse) := by
  obtain rfl := analyze_sites_ok_eq ops st db f p fc h
  have hfeat : (analysisResult ops db p).features =
      (analysisQueryRows ops db p).map
        (fun r => (⟨ops.jsonLoads r.geometry, r.id, r.area_ha, r.landuse⟩ : Feature J)) := rfl
  have hsub : ((analysisResult ops db p).features.map (fun ft => ft.id)).Sublist
      ((parcelsCTE ops p.min_area db.candidate_parcels).map (fun q => q.id)) := by
    rw [hfeat, List.map_map]
    have hc : ((fun ft : Feature J => ft.id) ∘
        fun r : FeatureRow => (⟨ops.jsonLoads r.geometry, r.id, r.area_ha, r.landuse⟩ : Feature J))
        = fun r : FeatureRow => r.id := rfl
    rw [hc, analysisQueryRows_eq]
    exact map_filterMap_sublist _ _ _
      (fun a b hb => ((stepFn_some_fields _ _ _ _ a b hb).1).symm ▸ rfl) _
  refine ⟨parcelsCTE_map_id ops p.min_area db.candidate_parcels, hsub, ?_, ?_, ?_⟩
  · refine List.Pairwise.sublist hsub ?_
    rw [parcelsCTE_map_id]
    exact List.pairwise_lt_range' 1 _
  · intro ft hft
    rw [hfeat] at hft
    obtain ⟨r, hr, rfl⟩ := List.mem_map.mp hft
    rw [analysisQueryRows_eq] at hr
    obtain ⟨rp, hrp, hstep⟩ := List.mem_filterMap.mp hr
    obtain ⟨hid, har, hlu⟩ := stepFn_some_fields _ _ _ _ rp r hstep
    exact ⟨rp, hrp, hid, har, hlu⟩
  · intro rp hrp
    exact parcelsCTE_mem_original ops p.min_area db.candidate_parcels rp hrp

/-- C1 witness: on the two-parcel database the candidate ranks are exactly
[1, 2] and the successful call's feature ids are strictly increasing. -/
theorem C1_rank_and_area_witness :
    (parcelsCTE ops0 params0.min_area db0.candidate_parcels).map (fun q => q.id) =
      [1, 2] ∧
    ((analysisResult ops0 db0 params0).features.map (fun ft => ft.id)).Pairwise (· < ·) := by
  have h := C1_rank_and_area Nat String ops0 st0 db0 fSucc params0
    (analysisResult ops0 db0 params0) (by decide)
  exact ⟨h.1.trans (by decide), h.2.2.1⟩

/-! ## C2: determinism and ordering -/

-- The output ordering claimed by the spec: descending area, then land-use.
def featOrd {J : Type} (a b : Feature J) : Prop :=
  byAreaLanduse (a.area_ha, a.landuse) (b.area_ha, b.landuse)

/-- C2: for a fixed database state, fixed fetch behaviour and fixed
parameters, the analysis is a pure function — two runs return identical
FeatureCollections and identical HTTP responses — and every successful
result's features are ordered by descending area then land-use code. -/
theorem C2_deterministic_and_ordered (G J : Type) (ops : GeomOps G J)
    (st : DbState) (db : Db G) (f : Nat → FetchRes) (p : AnalysisParams) :
    (analyze_sites ops st db f p = analyze_sites ops st db f p ∧
     ∀ b, postAnalyze (analyze_sites ops st db f) b =
       postAnalyze (analyze_sites ops st db f) b) ∧
    (∀ fc, analyze_sites ops st db f p = .ok fc →
      fc.features.Pairwise featOrd) := by
  refine ⟨⟨rfl, fun b => rfl⟩, fun fc h => ?_⟩
  obtain rfl := analyze_sites_ok_eq ops st db f p fc h
  have hkey : ((analysisQueryRows ops db p).map
      (fun r : FeatureRow => (r.area_ha, r.landuse))).Pairwise byAreaLanduse := by
    rw [analysisQueryRows_eq]
    refine List.Pairwise.sublist ?_ (parcelsCTE_pairwise_key ops p.min_area db.candidate_parcels)
    exact map_filterMap_sublist _ _ _
      (fun a b hb => by
        obtain ⟨_, har, hlu⟩ := stepFn_some_fields _ _ _ _ a b hb
        rw [har, hlu]) _
  have hrows : ((analysisQueryRows ops db p)).Pairwise
      (fun r1 r2 : FeatureRow => byAreaLanduse (r1.area_ha, r1.landuse) (r2.area_ha, r2.landuse)) :=
    List.pairwise_map.mp hkey
  exact List.pairwise_map.mpr hrows

/-- C2 witness: a concrete successful run's features are ordered by
descending area then land-use code. -/
theorem C2_deterministic_and_ordered_witness :
    (analysisResult ops0 db0 params0).features.Pairwise featOrd :=
  (C2_deterministic_and_ordered Nat String ops0 st0 db0 fSucc params0).2
    (analysisResult ops0 db0 params0) (by decide)

/-! ## C7: feature count antitone in min_area -/

-- Whether one candidate geometry survives the cut/clean/grid/empty stages.
def survivesPred {G J : Type} (ops : GeomOps G J) (excl : Option G) (maxD : Int)
    (grid : List (GridRow G)) (g : G) : Bool :=
  let g1 := cutGeom ops excl g
  !(ops.isEmpty g1) &&
    (nearGridPred ops maxD grid (cleanGeom ops g1) && !(ops.isEmpty (cleanGeom ops g1)))

theorem stepFn_isSome {G J : Type} (ops : GeomOps G J) (excl : Option G)
    (maxD : Int) (grid : List (GridRow G)) (q : RankedParcel G) :
    (stepFn ops excl maxD grid q).isSome = survivesPred ops excl maxD grid q.geom := by
  simp only [stepFn, survivesPred]
  by_cases h1 : ops.isEmpty (cutGeom ops excl q.geom) = true
  · simp [h1]
  · by_cases h2 : nearGridPred ops maxD grid (cleanGeom ops (cutGeom ops excl q.geom)) = false
    · simp [h1, h2]
    · by_cases h3 : ops.isEmpty (cleanGeom ops (cutGeom ops excl q.geom)) = true
      · simp [h1, h2, h3]
      · simp [h1, h2, h3]

theorem candFilter_mono {G J : Type} (ops : GeomOps G J) {m1 m2 : ℚ}
    (hm : m1 ≤ m2) (row : ParcelRow G) (c : CandParcel G)
    (h : candFilter ops m2 row = some c) : candFilter ops m1 row = some c := by
  cases hg : row.geom with
  | none => simp [candFilter, hg] at h
  | some g =>
      simp only [candFilter, hg] at h ⊢
      split_ifs at h with hcond
      · cases h
        rw [if_pos ⟨le_trans hm hcond.1, hcond.2⟩]
  -- the impossible branch (`none = some c`) is closed by `split_ifs`

theorem analysisQueryRows_length {G J : Type} (ops : GeomOps G J) (db : Db G)
    (p : AnalysisParams) :
    (analysisQueryRows ops db p).length =
      db.candidate_parcels.countP (fun row =>
        match candFilter ops p.min_area row with
        | none => false
        | some c => survivesPred ops
            (exclusionsCTE ops p.buffer_distance p.exclude_nature db.exclusion_zones)
            p.max_grid_distance db.grid_infrastructure c.geom) := by
  rw [analysisQueryRows_eq, List.length_filterMap_eq_countP]
  unfold parcelsCTE
  rw [List.countP_map]
  have hfun : ((fun a : RankedParcel G =>
      (stepFn ops
        (exclusionsCTE ops p.buffer_distance p.exclude_nature db.exclusion_zones)
        p.max_grid_distance db.grid_infrastructure a).isSome) ∘
      fun pr : Nat × CandParcel G =>
        (⟨pr.1, pr.2.area_ha, pr.2.landuse, pr.2.geom⟩ : RankedParcel G)) =
      fun pr : Nat × CandParcel G => survivesPred ops
        (exclusionsCTE ops p.buffer_distance p.exclude_nature db.exclusion_zones)
        p.max_grid_distance db.grid_infrastructure pr.2.geom := by
    funext pr
    exact stepFn_isSome ops _ _ _ _
  rw [hfun]
  have henum : ∀ (l : List (CandParcel G)) (n : Nat),
      (l.enumFrom n).countP (fun pr : Nat × CandParcel G => survivesPred ops
        (exclusionsCTE ops p.buffer_distance p.exclude_nature db.exclusion_zones)
        p.max_grid_distance db.grid_infrastructure pr.2.geom) =
      l.countP (fun c => survivesPred ops
        (exclusionsCTE ops p.buffer_distance p.exclude_nature db.exclusion_zones)
        p.max_grid_distance db.grid_infrastructure c.geom) := by
    intro l n
    conv_rhs => rw [← List.enumFrom_map_snd n l]
    rw [List.countP_map]
    rfl
  rw [henum]
  rw [(List.perm_insertionSort candLE _).countP_eq]
  rw [List.countP_filterMap]
  apply List.countP_congr
  intro row _
  cases hc : candFilter ops p.min_area row <;> simp [hc]

/-- C7: with the database state, geometry semantics and the other three
parameters fixed, the number of returned features is antitone in `min_area`:
a smaller minimum area (such as the minimum allowed 0.1) yields at least as
many features as any larger one, both for the pure query result and for any
two successful analyzeSites runs. -/
theorem C7_min_area_antitone (G J : Type) (ops : GeomOps G J) (db : Db G)
    (p : AnalysisParams) (m1 m2 : ℚ) (hm : m1 ≤ m2) :
    ((analysisResult ops db { p with min_area := m2 }).features.length ≤
      (analysisResult ops db { p with min_area := m1 }).features.length) ∧
    (∀ (st : DbState) (f : Nat → FetchRes) (fc1 fc2 : FeatureCollection J),
      analyze_sites ops st db f { p with min_area := m1 } = .ok fc1 →
      analyze_sites ops st db f { p with min_area := m2 } = .ok fc2 →
      fc2.features.length ≤ fc1.features.length) := by
  have key : (analysisQueryRows ops db { p with min_area := m2 }).length ≤
      (analysisQueryRows ops db { p with min_area := m1 }).length := by
    rw [analysisQueryRows_length, analysisQueryRows_length]
    apply List.countP_mono_left
    intro row _ hrow
    cases hc : candFilter ops m2 row with
    | none =>
        rw [hc] at hrow
        simp at hrow
    | some c =>
        rw [hc] at hrow
        rw [candFilter_mono ops hm row c hc]
        exact hrow
  have hlen : ∀ q : AnalysisParams,
      (analysisResult ops db q).features.length = (analysisQueryRows ops db q).length := by
    intro q
    simp [analysisResult, buildFeatureCollection]
  refine ⟨by rw [hlen, hlen]; exact key, ?_⟩
  intro st f fc1 fc2 h1 h2
  obtain rfl := analyze_sites_ok_eq ops st db f _ fc1 h1
  obtain rfl := analyze_sites_ok_eq ops st db f _ fc2 h2
  rw [hlen, hlen]
  exact key

/-- C7 witness: on the concrete database, raising min_area from 1 to 2
cannot increase the feature count. -/
theorem C7_min_area_antitone_witness :
    (analysisResult ops0 db0 { params0 with min_area := 2 }).features.length ≤
      (analysisResult ops0 db0 { params0 with min_area := 1 }).features.length :=
  (C7_min_area_antitone Nat String ops0 db0 params0 1 2 (by decide)).1
